import Mathlib

/-!
The header `vc_shader.h`.

A shallow embedding of `src/vc_shader.h`: the file reader `shaderReadFile`, the
compile and link sequence `shaderCompile` / `shaderLoad`, and the uniform
setters `shaderSet*`.

The header is a sequence of calls into the C library and into the OpenGL driver.
Both are external to the header, so they are a parameter of the embedding: an
`Env σ` answers every call whose result the header uses, as a function of an
environment state `σ` that each call may change.  Every call the header issues is
appended, with its arguments and its answer, to the `log` of the `World`.

The size `shaderReadFile` works with is what `ftell` answers, which the header
does not check: it need not be the number of bytes the stream delivers, and it
is -1 when `ftell` fails.  `long` and `size_t` are 64 bits wide and `long`
arithmetic wraps.  A write outside the buffer, which a negative size leads to,
is recorded in the `ub` flag of the `World`.

Paths, printed text and info logs are `String`s, the bytes of files and buffers
are natural numbers, handles (`unsigned int`) are natural numbers and `int`s are
integers; no arithmetic is done on any of them.  The two C++ overloads of
`shaderSetVec2`, `shaderSetVec3` and `shaderSetVec4` get two names: the one
taking a `glm` vector keeps the name, the one taking the components is
`shaderSetVec2xy`, `shaderSetVec3xyz`, `shaderSetVec4xyzw`.
-/

namespace VcShader

/-! ## Constants of the OpenGL headers -/

/-- Value of `GL_FALSE` in the OpenGL headers. -/
def GL_FALSE : Nat := 0
/-- Value of `GL_FRAGMENT_SHADER` in the OpenGL headers (0x8B30). -/
def GL_FRAGMENT_SHADER : Nat := 35632
/-- Value of `GL_VERTEX_SHADER` in the OpenGL headers (0x8B31). -/
def GL_VERTEX_SHADER : Nat := 35633
/-- Value of `GL_COMPILE_STATUS` in the OpenGL headers (0x8B81). -/
def GL_COMPILE_STATUS : Nat := 35713
/-- Value of `GL_LINK_STATUS` in the OpenGL headers (0x8B82). -/
def GL_LINK_STATUS : Nat := 35714

/-! ## Data -/

/-- A `float`, kept as its 32-bit pattern: the header only passes floats on. -/
abbrev GLfloat := Nat

/-- The type `glm::vec2`; `&value[0]` points at `x`, followed by `y`. -/
structure vec2 where
  x : GLfloat
  y : GLfloat
deriving DecidableEq, Repr

/-- The type `glm::vec3`. -/
structure vec3 where
  x : GLfloat
  y : GLfloat
  z : GLfloat
deriving DecidableEq, Repr

/-- The type `glm::vec4`. -/
structure vec4 where
  x : GLfloat
  y : GLfloat
  z : GLfloat
  w : GLfloat
deriving DecidableEq, Repr

/-- The type `glm::mat2`: two columns; `&mat[0][0]` points at the first
component of the first column, the columns follow each other in memory. -/
structure mat2 where
  c0 : vec2
  c1 : vec2
deriving DecidableEq, Repr

/-- The type `glm::mat3`: three columns. -/
structure mat3 where
  c0 : vec3
  c1 : vec3
  c2 : vec3
deriving DecidableEq, Repr

/-- The type `glm::mat4`: four columns. -/
structure mat4 where
  c0 : vec4
  c1 : vec4
  c2 : vec4
  c3 : vec4
deriving DecidableEq, Repr

/-- The floats found at `&value[0]` of a `glm::vec2`. -/
def vec2.ptr (v : vec2) : List GLfloat := [v.x, v.y]
/-- The floats found at `&value[0]` of a `glm::vec3`. -/
def vec3.ptr (v : vec3) : List GLfloat := [v.x, v.y, v.z]
/-- The floats found at `&value[0]` of a `glm::vec4`. -/
def vec4.ptr (v : vec4) : List GLfloat := [v.x, v.y, v.z, v.w]
/-- The floats found at `&mat[0][0]` of a `glm::mat2`. -/
def mat2.ptr (m : mat2) : List GLfloat := m.c0.ptr ++ m.c1.ptr
/-- The floats found at `&mat[0][0]` of a `glm::mat3`. -/
def mat3.ptr (m : mat3) : List GLfloat := m.c0.ptr ++ m.c1.ptr ++ m.c2.ptr
/-- The floats found at `&mat[0][0]` of a `glm::mat4`. -/
def mat4.ptr (m : mat4) : List GLfloat := m.c0.ptr ++ m.c1.ptr ++ m.c2.ptr ++ m.c3.ptr

/-- An open `FILE*`: the path it was opened on and the bytes that reads of the
stream deliver from its start. What `ftell` reports at the end of the stream is
not part of it: that is an answer of the environment. -/
structure FILE where
  path : String
  bytes : List Nat
deriving DecidableEq, Repr

/-- The `glUniform*` calls of the header, with their arguments. -/
inductive Upload where
  | glUniform1i (location : Int) (v0 : Int)
  | glUniform1f (location : Int) (v0 : GLfloat)
  | glUniform2f (location : Int) (v0 v1 : GLfloat)
  | glUniform3f (location : Int) (v0 v1 v2 : GLfloat)
  | glUniform4f (location : Int) (v0 v1 v2 v3 : GLfloat)
  | glUniform2fv (location : Int) (count : Nat) (value : List GLfloat)
  | glUniform3fv (location : Int) (count : Nat) (value : List GLfloat)
  | glUniform4fv (location : Int) (count : Nat) (value : List GLfloat)
  | glUniformMatrix2fv (location : Int) (count : Nat) (transpose : Nat) (value : List GLfloat)
  | glUniformMatrix3fv (location : Int) (count : Nat) (transpose : Nat) (value : List GLfloat)
  | glUniformMatrix4fv (location : Int) (count : Nat) (transpose : Nat) (value : List GLfloat)
deriving DecidableEq, Repr

/-- A call issued by the header, with its arguments and, where the header uses
it, the answer it got.  `fopen` and `malloc` record whether the answer was
non-NULL, `ftell` the `long` it returned, `fread` the number of bytes delivered.
In `glShaderSource` the `length` argument is `none` for the NULL pointer. -/
inductive Call where
  | fopen (path : String) (mode : String) (ok : Bool)
  | fseekEnd
  | fseekSet
  | ftell (ret : Int)
  | malloc (size : Nat) (ok : Bool)
  | fread (size count : Nat) (ret : Nat)
  | fclose
  | free (block : List Nat)
  | printf (text : String)
  | glCreateShader (type : Nat) (ret : Nat)
  | glShaderSource (shader : Nat) (count : Nat) (string : List (List Nat))
      (length : Option (List Int))
  | glCompileShader (shader : Nat)
  | glGetShaderiv (shader : Nat) (pname : Nat) (params : Int)
  | glGetShaderInfoLog (shader : Nat) (bufSize : Nat) (infoLog : String)
  | glDeleteShader (shader : Nat)
  | glCreateProgram (ret : Nat)
  | glAttachShader (program : Nat) (shader : Nat)
  | glLinkProgram (program : Nat)
  | glGetProgramiv (program : Nat) (pname : Nat) (params : Int)
  | glGetProgramInfoLog (program : Nat) (bufSize : Nat) (infoLog : String)
  | glDeleteProgram (program : Nat)
  | glUseProgram (program : Nat)
  | glGetUniformLocation (program : Nat) (name : String) (ret : Int)
  | glUniform (u : Upload)
deriving DecidableEq, Repr

/-- The environment of the header: the C library and the OpenGL driver, over an
environment state `σ`.  `fopen` answers NULL (`none`) or the bytes the stream
delivers; `ftell` answers the position it reports for a stream that was sought
to its end (any integer: -1 on an error, and not always the number of bytes the
stream delivers), and changes nothing; `malloc` answers NULL or a block, given
by the indeterminate byte found at each offset; `fread` answers how many bytes
it offers. -/
structure Env (σ : Type) where
  fopen : String → σ → Option (List Nat) × σ
  ftell : FILE → σ → Int
  malloc : Nat → σ → Option (Nat → Nat) × σ
  fread : Nat → σ → Nat × σ
  glCreateShader : Nat → σ → Nat × σ
  glShaderSource : Nat → Nat → List (List Nat) → Option (List Int) → σ → σ
  glCompileShader : Nat → σ → σ
  glGetShaderiv : Nat → Nat → σ → Int × σ
  glGetShaderInfoLog : Nat → Nat → σ → String × σ
  glDeleteShader : Nat → σ → σ
  glCreateProgram : σ → Nat × σ
  glAttachShader : Nat → Nat → σ → σ
  glLinkProgram : Nat → σ → σ
  glGetProgramiv : Nat → Nat → σ → Int × σ
  glGetProgramInfoLog : Nat → Nat → σ → String × σ
  glDeleteProgram : Nat → σ → σ
  glUseProgram : Nat → σ → σ
  glGetUniformLocation : Nat → String → σ → Int × σ
  glUniform : Upload → σ → σ

/-- The state a function of the header runs in: the state of the environment,
the calls issued so far, oldest first, and whether the run has written outside a
block of memory. Such a write is undefined in C: the embedding goes on with the
block as it was, and `ub` tells that the program itself may do anything. -/
structure World (σ : Type) where
  sys : σ
  log : List Call
  ub : Bool

variable {σ : Type}

/-- Append a call to the log, the environment state becoming `s`. -/
def World.emit (w : World σ) (c : Call) (s : σ) : World σ :=
  { sys := s, log := w.log ++ [c], ub := w.ub }

/-- Append a call that leaves the environment state alone. -/
def World.note (w : World σ) (c : Call) : World σ :=
  w.emit c w.sys

/-- A world with an empty log. -/
def World.init (s : σ) : World σ := { sys := s, log := [], ub := false }

/-- Record a write outside a block. -/
def World.undefined (w : World σ) : World σ := { w with ub := true }

/-! ## Machine integers

The sizes of `shaderReadFile`: `long` and `size_t` are taken to be 64 bits wide
(LP64), `long` in two's complement. -/

/-- The `long` an integer wraps to. -/
def toLong (x : Int) : Int :=
  (x + 9223372036854775808) % 18446744073709551616 - 9223372036854775808

/-- The `size_t` an integer converts to. -/
def toSizeT (x : Int) : Nat := (x % 18446744073709551616).toNat

/-! ## The calls into the C library -/

/-- The call `fopen(path, "rb")`: NULL, or a stream at the start of the file. -/
def fopen (env : Env σ) (path : String) (w : World σ) : Option FILE × World σ :=
  let r := env.fopen path w.sys
  (r.1.map (fun b => { path := path, bytes := b }),
    w.emit (Call.fopen path "rb" r.1.isSome) r.2)

/-- The call `fseek(file, 0, SEEK_END)`; its result is not looked at. -/
def fseekEnd (w : World σ) : World σ := w.note Call.fseekEnd

/-- The call `fseek(file, 0, SEEK_SET)`; its result is not looked at. The stream
is at its start afterwards. -/
def fseekSet (w : World σ) : World σ := w.note Call.fseekSet

/-- The call `ftell(file)`: the `long` the environment answers. -/
def ftell (env : Env σ) (file : FILE) (w : World σ) : Int × World σ :=
  (toLong (env.ftell file w.sys), w.note (Call.ftell (toLong (env.ftell file w.sys))))

/-- The call `malloc(size)`: NULL, or a block of `size` indeterminate bytes. -/
def malloc (env : Env σ) (size : Nat) (w : World σ) : Option (List Nat) × World σ :=
  let r := env.malloc size w.sys
  (r.1.map (fun g => (List.range size).map g), w.emit (Call.malloc size r.1.isSome) r.2)

/-- The number of bytes a read of `count` bytes delivers when the environment
offers `offered`: no more than asked for, no more than the stream has. -/
def delivered (file : FILE) (count offered : Nat) : Nat :=
  min offered (min count file.bytes.length)

/-- The call `fread(buffer, 1, count, file)` on a stream at its start: the bytes
delivered overwrite the start of the buffer, the rest of the buffer is as it
was. Bytes delivered past the end of the buffer are a write outside it. -/
def fread (env : Env σ) (buffer : List Nat) (count : Nat) (file : FILE) (w : World σ) :
    List Nat × World σ :=
  let r := env.fread count w.sys
  let k := delivered file count r.1
  ((file.bytes.take k).take buffer.length ++ buffer.drop k,
    if k ≤ buffer.length then w.emit (Call.fread 1 count k) r.2
    else (w.emit (Call.fread 1 count k) r.2).undefined)

/-- The assignment `buffer[i] = v`: a write outside the buffer when `i` is
negative or not below its size. -/
def store (buffer : List Nat) (i : Int) (v : Nat) (w : World σ) : List Nat × World σ :=
  if 0 ≤ i ∧ i < buffer.length then (buffer.set i.toNat v, w) else (buffer, w.undefined)

/-- The call `fclose(file)`. -/
def fclose (w : World σ) : World σ := w.note Call.fclose

/-- The call `free(block)`. -/
def free (block : List Nat) (w : World σ) : World σ := w.note (Call.free block)

/-- The call `printf`, with the text it prints. -/
def printf (text : String) (w : World σ) : World σ := w.note (Call.printf text)

/-! ## The calls into the driver -/

/-- The call `glCreateShader(type)`. -/
def glCreateShader (env : Env σ) (type : Nat) (w : World σ) : Nat × World σ :=
  let r := env.glCreateShader type w.sys
  (r.1, w.emit (Call.glCreateShader type r.1) r.2)

/-- The call `glShaderSource(shader, count, string, length)`. -/
def glShaderSource (env : Env σ) (shader count : Nat) (string : List (List Nat))
    (length : Option (List Int)) (w : World σ) : World σ :=
  w.emit (Call.glShaderSource shader count string length)
    (env.glShaderSource shader count string length w.sys)

/-- The call `glCompileShader(shader)`. -/
def glCompileShader (env : Env σ) (shader : Nat) (w : World σ) : World σ :=
  w.emit (Call.glCompileShader shader) (env.glCompileShader shader w.sys)

/-- The call `glGetShaderiv(shader, pname, &params)`: the value found in `params`
afterwards. -/
def glGetShaderiv (env : Env σ) (shader pname : Nat) (w : World σ) : Int × World σ :=
  let r := env.glGetShaderiv shader pname w.sys
  (r.1, w.emit (Call.glGetShaderiv shader pname r.1) r.2)

/-- The call `glGetShaderInfoLog(shader, bufSize, NULL, infoLog)`. -/
def glGetShaderInfoLog (env : Env σ) (shader bufSize : Nat) (w : World σ) : String × World σ :=
  let r := env.glGetShaderInfoLog shader bufSize w.sys
  (r.1, w.emit (Call.glGetShaderInfoLog shader bufSize r.1) r.2)

/-- The call `glDeleteShader(shader)`. -/
def glDeleteShader (env : Env σ) (shader : Nat) (w : World σ) : World σ :=
  w.emit (Call.glDeleteShader shader) (env.glDeleteShader shader w.sys)

/-- The call `glCreateProgram()`. -/
def glCreateProgram (env : Env σ) (w : World σ) : Nat × World σ :=
  let r := env.glCreateProgram w.sys
  (r.1, w.emit (Call.glCreateProgram r.1) r.2)

/-- The call `glAttachShader(program, shader)`. -/
def glAttachShader (env : Env σ) (program shader : Nat) (w : World σ) : World σ :=
  w.emit (Call.glAttachShader program shader) (env.glAttachShader program shader w.sys)

/-- The call `glLinkProgram(program)`. -/
def glLinkProgram (env : Env σ) (program : Nat) (w : World σ) : World σ :=
  w.emit (Call.glLinkProgram program) (env.glLinkProgram program w.sys)

/-- The call `glGetProgramiv(program, pname, &params)`: the value found in
`params` afterwards. -/
def glGetProgramiv (env : Env σ) (program pname : Nat) (w : World σ) : Int × World σ :=
  let r := env.glGetProgramiv program pname w.sys
  (r.1, w.emit (Call.glGetProgramiv program pname r.1) r.2)

/-- The call `glGetProgramInfoLog(program, bufSize, NULL, infoLog)`. -/
def glGetProgramInfoLog (env : Env σ) (program bufSize : Nat) (w : World σ) :
    String × World σ :=
  let r := env.glGetProgramInfoLog program bufSize w.sys
  (r.1, w.emit (Call.glGetProgramInfoLog program bufSize r.1) r.2)

/-- The call `glDeleteProgram(program)`. -/
def glDeleteProgram (env : Env σ) (program : Nat) (w : World σ) : World σ :=
  w.emit (Call.glDeleteProgram program) (env.glDeleteProgram program w.sys)

/-- The call `glUseProgram(program)`. -/
def glUseProgram (env : Env σ) (program : Nat) (w : World σ) : World σ :=
  w.emit (Call.glUseProgram program) (env.glUseProgram program w.sys)

/-- The call `glGetUniformLocation(program, name)`. -/
def glGetUniformLocation (env : Env σ) (program : Nat) (name : String) (w : World σ) :
    Int × World σ :=
  let r := env.glGetUniformLocation program name w.sys
  (r.1, w.emit (Call.glGetUniformLocation program name r.1) r.2)

/-- One of the `glUniform*` calls. -/
def glUniform (env : Env σ) (u : Upload) (w : World σ) : World σ :=
  w.emit (Call.glUniform u) (env.glUniform u w.sys)

/-! ## The header -/

/-- The function `shaderReadFile` (lines 12-40): NULL (`none`) or the buffer.
The `long size` is what `ftell` answered, unchecked; `size + 1` is computed in
`long` and converted to the `size_t` of `malloc`, `size` is converted to the
`size_t` count of `fread`, and `buffer[size]` is written. -/
def shaderReadFile (env : Env σ) (path : String) (w : World σ) :
    Option (List Nat) × World σ :=
  let r := fopen env path w
  match r.1 with
  | none => (none, printf ("Failed to open file: " ++ path ++ "\n") r.2)
  | some file =>
    let e := fseekEnd r.2
    let t := ftell env file e
    let size := t.1
    let b := fseekSet t.2
    let m := malloc env (toSizeT (toLong (size + 1))) b
    match m.1 with
    | none =>
      (none, fclose (printf ("Failed to allocate memory for file: " ++ path ++ "\n") m.2))
    | some buffer =>
      let f := fread env buffer (toSizeT size) file m.2
      let z := store f.1 size 0 f.2
      (some z.1, fclose z.2)

/-- The function `shaderCompile` (lines 42-59). -/
def shaderCompile (env : Env σ) (type : Nat) (src : List Nat) (w : World σ) :
    Nat × World σ :=
  let c := glCreateShader env type w
  let id := c.1
  let w := glShaderSource env id 1 [src] none c.2
  let w := glCompileShader env id w
  let g := glGetShaderiv env id GL_COMPILE_STATUS w
  let success := g.1
  if success = 0 then
    let l := glGetShaderInfoLog env id 512 g.2
    (0, printf ("Failed Compile Shader: " ++ l.1 ++ "\n") l.2)
  else
    (id, g.2)

/-- The function `shaderLoad` (lines 61-106). -/
def shaderLoad (env : Env σ) (vertex_path fragment_path : String) (w : World σ) :
    Nat × World σ :=
  let rv := shaderReadFile env vertex_path w
  let rf := shaderReadFile env fragment_path rv.2
  match rv.1, rf.1 with
  | some vertex_src, some fragment_src =>
    let cv := shaderCompile env GL_VERTEX_SHADER vertex_src rf.2
    let cf := shaderCompile env GL_FRAGMENT_SHADER fragment_src cv.2
    let vertex := cv.1
    let fragment := cf.1
    let w := free fragment_src (free vertex_src cf.2)
    if vertex = 0 ∨ fragment = 0 then
      let w := if vertex ≠ 0 then glDeleteShader env vertex w else w
      let w := if fragment ≠ 0 then glDeleteShader env fragment w else w
      (0, w)
    else
      let p := glCreateProgram env w
      let program := p.1
      let w := glAttachShader env program vertex p.2
      let w := glAttachShader env program fragment w
      let w := glLinkProgram env program w
      let g := glGetProgramiv env program GL_LINK_STATUS w
      let success := g.1
      if success = 0 then
        let l := glGetProgramInfoLog env program 512 g.2
        let w := printf ("Failed Link Shader: " ++ l.1 ++ "\n") l.2
        (0, glDeleteProgram env program w)
      else
        let w := glDeleteShader env vertex g.2
        let w := glDeleteShader env fragment w
        (program, w)
  | _, _ => (0, printf "Failed Load Shader File\n" rf.2)

/-- The function `shaderUse` (lines 109-112). -/
def shaderUse (env : Env σ) (id : Nat) (w : World σ) : World σ :=
  glUseProgram env id w

/-- The function `shaderDelete` (lines 115-118). -/
def shaderDelete (env : Env σ) (id : Nat) (w : World σ) : World σ :=
  glDeleteProgram env id w

/-- The conversion `(int)value` of a `bool`. -/
def boolToInt (value : Bool) : Int := if value then 1 else 0

/-- The function `shaderSetBool` (lines 121-124). -/
def shaderSetBool (env : Env σ) (id : Nat) (name : String) (value : Bool) (w : World σ) :
    World σ :=
  let l := glGetUniformLocation env id name w
  glUniform env (Upload.glUniform1i l.1 (boolToInt value)) l.2

/-- The function `shaderSetInt` (lines 126-129). -/
def shaderSetInt (env : Env σ) (id : Nat) (name : String) (value : Int) (w : World σ) :
    World σ :=
  let l := glGetUniformLocation env id name w
  glUniform env (Upload.glUniform1i l.1 value) l.2

/-- The function `shaderSetFloat` (lines 131-134). -/
def shaderSetFloat (env : Env σ) (id : Nat) (name : String) (value : GLfloat) (w : World σ) :
    World σ :=
  let l := glGetUniformLocation env id name w
  glUniform env (Upload.glUniform1f l.1 value) l.2

/-- The function `shaderSetVec2` taking a `glm::vec2` (lines 136-139). -/
def shaderSetVec2 (env : Env σ) (id : Nat) (name : String) (value : vec2) (w : World σ) :
    World σ :=
  let l := glGetUniformLocation env id name w
  glUniform env (Upload.glUniform2fv l.1 1 value.ptr) l.2

/-- The function `shaderSetVec2` taking two floats (lines 140-143). -/
def shaderSetVec2xy (env : Env σ) (id : Nat) (name : String) (x y : GLfloat) (w : World σ) :
    World σ :=
  let l := glGetUniformLocation env id name w
  glUniform env (Upload.glUniform2f l.1 x y) l.2

/-- The function `shaderSetVec3` taking a `glm::vec3` (lines 145-148). -/
def shaderSetVec3 (env : Env σ) (id : Nat) (name : String) (value : vec3) (w : World σ) :
    World σ :=
  let l := glGetUniformLocation env id name w
  glUniform env (Upload.glUniform3fv l.1 1 value.ptr) l.2

/-- The function `shaderSetVec3` taking three floats (lines 149-152). -/
def shaderSetVec3xyz (env : Env σ) (id : Nat) (name : String) (x y z : GLfloat)
    (w : World σ) : World σ :=
  let l := glGetUniformLocation env id name w
  glUniform env (Upload.glUniform3f l.1 x y z) l.2

/-- The function `shaderSetVec4` taking a `glm::vec4` (lines 154-157). -/
def shaderSetVec4 (env : Env σ) (id : Nat) (name : String) (value : vec4) (w : World σ) :
    World σ :=
  let l := glGetUniformLocation env id name w
  glUniform env (Upload.glUniform4fv l.1 1 value.ptr) l.2

/-- The function `shaderSetVec4` taking four floats (lines 158-161). -/
def shaderSetVec4xyzw (env : Env σ) (id : Nat) (name : String) (x y z w4 : GLfloat)
    (w : World σ) : World σ :=
  let l := glGetUniformLocation env id name w
  glUniform env (Upload.glUniform4f l.1 x y z w4) l.2

/-- The function `shaderSetMat2` (lines 163-166). -/
def shaderSetMat2 (env : Env σ) (id : Nat) (name : String) (mat : mat2) (w : World σ) :
    World σ :=
  let l := glGetUniformLocation env id name w
  glUniform env (Upload.glUniformMatrix2fv l.1 1 GL_FALSE mat.ptr) l.2

/-- The function `shaderSetMat3` (lines 168-171). -/
def shaderSetMat3 (env : Env σ) (id : Nat) (name : String) (mat : mat3) (w : World σ) :
    World σ :=
  let l := glGetUniformLocation env id name w
  glUniform env (Upload.glUniformMatrix3fv l.1 1 GL_FALSE mat.ptr) l.2

/-- The function `shaderSetMat4` (lines 173-176). -/
def shaderSetMat4 (env : Env σ) (id : Nat) (name : String) (mat : mat4) (w : World σ) :
    World σ :=
  let l := glGetUniformLocation env id name w
  glUniform env (Upload.glUniformMatrix4fv l.1 1 GL_FALSE mat.ptr) l.2

/-- A call of one of the uniform setters of the header, with its value. -/
inductive Setter where
  | setBool (value : Bool)
  | setInt (value : Int)
  | setFloat (value : GLfloat)
  | setVec2 (value : vec2)
  | setVec2xy (x y : GLfloat)
  | setVec3 (value : vec3)
  | setVec3xyz (x y z : GLfloat)
  | setVec4 (value : vec4)
  | setVec4xyzw (x y z w : GLfloat)
  | setMat2 (mat : mat2)
  | setMat3 (mat : mat3)
  | setMat4 (mat : mat4)
deriving DecidableEq, Repr

/-- Run a setter call on program `id` and uniform `name`. -/
def Setter.run (env : Env σ) (id : Nat) (name : String) : Setter → World σ → World σ
  | .setBool value => shaderSetBool env id name value
  | .setInt value => shaderSetInt env id name value
  | .setFloat value => shaderSetFloat env id name value
  | .setVec2 value => shaderSetVec2 env id name value
  | .setVec2xy x y => shaderSetVec2xy env id name x y
  | .setVec3 value => shaderSetVec3 env id name value
  | .setVec3xyz x y z => shaderSetVec3xyz env id name x y z
  | .setVec4 value => shaderSetVec4 env id name value
  | .setVec4xyzw x y z w => shaderSetVec4xyzw env id name x y z w
  | .setMat2 mat => shaderSetMat2 env id name mat
  | .setMat3 mat => shaderSetMat3 env id name mat
  | .setMat4 mat => shaderSetMat4 env id name mat

/-! ## What the driver makes of the arguments

The meaning the OpenGL API gives to the arguments the header passes. -/

/-- The string a `const char*` denotes: the bytes before the first zero byte. -/
def cString (p : List Nat) : List Nat := p.takeWhile (fun b => b ≠ 0)

/-- The source text `glShaderSource` gives a shader: with `length` NULL every
string is read up to its terminating zero; otherwise the lengths say how many
bytes each string has (a negative length again meaning up to the zero). -/
def sourceText (string : List (List Nat)) : Option (List Int) → List Nat
  | none => (string.map cString).flatten
  | some length =>
    ((string.zip length).map
      (fun sl => if sl.2 < 0 then cString sl.1 else sl.1.take sl.2.toNat)).flatten

/-- A value of a uniform variable: integers, floats, or the floats of a matrix
in the order they were supplied, with the transpose flag. -/
inductive UniformValue where
  | ints (v : List Int)
  | floats (v : List GLfloat)
  | matrix (transpose : Nat) (v : List GLfloat)
deriving DecidableEq, Repr

/-- The location an upload writes to. -/
def Upload.location : Upload → Int
  | .glUniform1i l _ => l
  | .glUniform1f l _ => l
  | .glUniform2f l _ _ => l
  | .glUniform3f l _ _ _ => l
  | .glUniform4f l _ _ _ _ => l
  | .glUniform2fv l _ _ => l
  | .glUniform3fv l _ _ => l
  | .glUniform4fv l _ _ => l
  | .glUniformMatrix2fv l _ _ _ => l
  | .glUniformMatrix3fv l _ _ _ => l
  | .glUniformMatrix4fv l _ _ _ => l

/-- The value an upload writes: the `fv` calls read `count` vectors (or
matrices) from the pointer. -/
def Upload.value : Upload → UniformValue
  | .glUniform1i _ v0 => .ints [v0]
  | .glUniform1f _ v0 => .floats [v0]
  | .glUniform2f _ v0 v1 => .floats [v0, v1]
  | .glUniform3f _ v0 v1 v2 => .floats [v0, v1, v2]
  | .glUniform4f _ v0 v1 v2 v3 => .floats [v0, v1, v2, v3]
  | .glUniform2fv _ count value => .floats (value.take (2 * count))
  | .glUniform3fv _ count value => .floats (value.take (3 * count))
  | .glUniform4fv _ count value => .floats (value.take (4 * count))
  | .glUniformMatrix2fv _ count transpose value => .matrix transpose (value.take (4 * count))
  | .glUniformMatrix3fv _ count transpose value => .matrix transpose (value.take (9 * count))
  | .glUniformMatrix4fv _ count transpose value => .matrix transpose (value.take (16 * count))

/-! ## A reference environment

A small, executable file system and driver, used to run the header on concrete
inputs. -/

/-- A shader object of the reference driver. -/
structure ShaderObj where
  name : Nat
  type : Nat
  source : List Nat
  compiled : Bool
  flagged : Bool
deriving DecidableEq, Repr

/-- A program object of the reference driver; `store` holds the uniform values
uploaded so far, newest first. -/
structure ProgramObj where
  name : Nat
  attached : List Nat
  linked : Bool
  flagged : Bool
  store : List (Int × UniformValue)
deriving DecidableEq, Repr

/-- The state of the reference environment.
`files` are the files that can be opened, `tells` what `ftell` reports at the
end of the files whose reported size is not their number of bytes, `heap` the
number of allocations (of at most 65536 bytes) that still succeed, `chunk` the most bytes one read delivers, `fill` the byte found in
fresh memory, `junk` the value found in an `int` that was never written,
`rejects` the source texts the compiler rejects, `linkable` whether linking
compiled shaders succeeds, `active` the names of the uniforms of a linked
program (the location of a name is its index). -/
structure Sim where
  files : List (String × List Nat)
  tells : List (String × Int)
  heap : Nat
  chunk : Nat
  fill : Nat
  junk : Int
  rejects : List (List Nat)
  linkable : Bool
  active : List String
  next : Nat
  shaders : List ShaderObj
  programs : List ProgramObj
  current : Nat
deriving DecidableEq, Repr

namespace Sim

/-- The live shader object of a name. -/
def findShader (s : Sim) (n : Nat) : Option ShaderObj :=
  s.shaders.find? (fun o => o.name = n)

/-- The live program object of a name. -/
def findProgram (s : Sim) (n : Nat) : Option ProgramObj :=
  s.programs.find? (fun o => o.name = n)

/-- Update the shader object of a name, if there is one. -/
def mapShader (s : Sim) (n : Nat) (f : ShaderObj → ShaderObj) : Sim :=
  { s with shaders := s.shaders.map (fun o => if o.name = n then f o else o) }

/-- Update the program object of a name, if there is one. -/
def mapProgram (s : Sim) (n : Nat) (f : ProgramObj → ProgramObj) : Sim :=
  { s with programs := s.programs.map (fun o => if o.name = n then f o else o) }

/-- Whether some program has the shader attached. -/
def isAttached (s : Sim) (n : Nat) : Bool :=
  s.programs.any (fun p => p.attached.contains n)

/-- Remove a program at once: its shaders are detached, and a detached shader
that was flagged for deletion and is attached nowhere else goes with it. -/
def dropProgram (s : Sim) (n : Nat) : Sim :=
  let s1 := { s with programs := s.programs.filter (fun p => p.name ≠ n) }
  { s1 with shaders := s1.shaders.filter (fun o => !(o.flagged && !(s1.isAttached o.name))) }

/-- A path opens when it names one of the files. -/
def fopen (path : String) (s : Sim) : Option (List Nat) × Sim :=
  ((s.files.find? (fun f => f.1 = path)).map (fun f => f.2), s)

/-- The end of a file is reported at its number of bytes, unless `tells` says
otherwise. -/
def ftell (file : FILE) (s : Sim) : Int :=
  match s.tells.find? (fun t => t.1 = file.path) with
  | some t => t.2
  | none => file.bytes.length

/-- An allocation of at most 65536 bytes succeeds while the heap has blocks left. -/
def malloc (size : Nat) (s : Sim) : Option (Nat → Nat) × Sim :=
  if s.heap = 0 ∨ 65536 < size then (none, s)
  else (some (fun _ => s.fill), { s with heap := s.heap - 1 })

/-- A read offers at most `chunk` bytes. -/
def fread (_count : Nat) (s : Sim) : Nat × Sim := (s.chunk, s)

/-- A vertex or fragment shader gets a fresh name; any other type is an error and
the answer is 0. -/
def glCreateShader (type : Nat) (s : Sim) : Nat × Sim :=
  if type = GL_VERTEX_SHADER ∨ type = GL_FRAGMENT_SHADER then
    (s.next, { s with
      next := s.next + 1
      shaders := s.shaders ++
        [{ name := s.next, type := type, source := [], compiled := false, flagged := false }] })
  else (0, s)

/-- The source text of the shader is replaced. -/
def glShaderSource (shader count : Nat) (string : List (List Nat))
    (length : Option (List Int)) (s : Sim) : Sim :=
  s.mapShader shader (fun o => { o with source := sourceText (string.take count) length })

/-- A shader compiles unless its text is one the compiler rejects. -/
def glCompileShader (shader : Nat) (s : Sim) : Sim :=
  s.mapShader shader (fun o => { o with compiled := !(s.rejects.contains o.source) })

/-- The compile status of a live shader; for anything else nothing is written and
the variable keeps the junk it held. -/
def glGetShaderiv (shader pname : Nat) (s : Sim) : Int × Sim :=
  match s.findShader shader with
  | some o => (if pname = GL_COMPILE_STATUS then (if o.compiled then 1 else 0) else s.junk, s)
  | none => (s.junk, s)

/-- The info log of a shader. -/
def glGetShaderInfoLog (shader _bufSize : Nat) (s : Sim) : String × Sim :=
  match s.findShader shader with
  | some o => (if o.compiled then "" else "ERROR: rejected", s)
  | none => ("", s)

/-- A shader attached to a program is flagged for deletion, any other is removed. -/
def glDeleteShader (shader : Nat) (s : Sim) : Sim :=
  if s.isAttached shader then s.mapShader shader (fun o => { o with flagged := true })
  else { s with shaders := s.shaders.filter (fun o => o.name ≠ shader) }

/-- A program gets a fresh name. -/
def glCreateProgram (s : Sim) : Nat × Sim :=
  (s.next, { s with
    next := s.next + 1
    programs := s.programs ++
      [{ name := s.next, attached := [], linked := false, flagged := false, store := [] }] })

/-- A live shader is attached to the program, once. -/
def glAttachShader (program shader : Nat) (s : Sim) : Sim :=
  match s.findShader shader with
  | some _ =>
    s.mapProgram program
      (fun p => if p.attached.contains shader then p else { p with attached := p.attached ++ [shader] })
  | none => s

/-- A program links when the linker works and all its shaders are compiled. -/
def glLinkProgram (program : Nat) (s : Sim) : Sim :=
  s.mapProgram program (fun p => { p with
    linked := s.linkable && p.attached.all (fun n =>
      match s.findShader n with
      | some o => o.compiled
      | none => false) })

/-- The link status of a live program; for anything else nothing is written. -/
def glGetProgramiv (program pname : Nat) (s : Sim) : Int × Sim :=
  match s.findProgram program with
  | some p => (if pname = GL_LINK_STATUS then (if p.linked then 1 else 0) else s.junk, s)
  | none => (s.junk, s)

/-- The info log of a program. -/
def glGetProgramInfoLog (program _bufSize : Nat) (s : Sim) : String × Sim :=
  match s.findProgram program with
  | some p => (if p.linked then "" else "ERROR: not linked", s)
  | none => ("", s)

/-- The program in use is flagged for deletion, any other is removed at once. -/
def glDeleteProgram (program : Nat) (s : Sim) : Sim :=
  if program = s.current then s.mapProgram program (fun p => { p with flagged := true })
  else s.dropProgram program

/-- A live program (or 0) becomes the program in use; the program it replaces
goes if it was flagged for deletion. -/
def glUseProgram (program : Nat) (s : Sim) : Sim :=
  if program = s.current then s
  else if program ≠ 0 ∧ (s.findProgram program).isNone then s
  else
    let s1 := { s with current := program }
    match s.findProgram s.current with
    | some old => if old.flagged then s1.dropProgram old.name else s1
    | none => s1

/-- The location of an active uniform of a linked program, or -1. -/
def glGetUniformLocation (program : Nat) (name : String) (s : Sim) : Int × Sim :=
  match s.findProgram program with
  | some p => (if p.linked ∧ name ∈ s.active then (s.active.indexOf name : Int) else -1, s)
  | none => (-1, s)

/-- An upload writes to the program in use; location -1 is ignored. -/
def glUniform (u : Upload) (s : Sim) : Sim :=
  if u.location < 0 then s
  else s.mapProgram s.current (fun p => { p with store := (u.location, u.value) :: p.store })

end Sim

/-- The reference environment. -/
def simEnv : Env Sim where
  fopen := Sim.fopen
  ftell := Sim.ftell
  malloc := Sim.malloc
  fread := Sim.fread
  glCreateShader := Sim.glCreateShader
  glShaderSource := Sim.glShaderSource
  glCompileShader := Sim.glCompileShader
  glGetShaderiv := Sim.glGetShaderiv
  glGetShaderInfoLog := Sim.glGetShaderInfoLog
  glDeleteShader := Sim.glDeleteShader
  glCreateProgram := Sim.glCreateProgram
  glAttachShader := Sim.glAttachShader
  glLinkProgram := Sim.glLinkProgram
  glGetProgramiv := Sim.glGetProgramiv
  glGetProgramInfoLog := Sim.glGetProgramInfoLog
  glDeleteProgram := Sim.glDeleteProgram
  glUseProgram := Sim.glUseProgram
  glGetUniformLocation := Sim.glGetUniformLocation
  glUniform := Sim.glUniform

/-- A reference state: two shader files, memory to spare, reads that deliver
everything, a compiler that rejects the text `!`, no driver object yet. -/
def sim0 : Sim where
  files := [("v.glsl", [118, 49]), ("f.glsl", [102]), ("bad.glsl", [33]), ("empty.glsl", [])]
  tells := []
  heap := 8
  chunk := 1000
  fill := 170
  junk := 1
  rejects := [[33]]
  linkable := true
  active := ["color", "model"]
  next := 1
  shaders := []
  programs := []
  current := 0

/-- The reference state with other files: a vertex file with a zero byte in it
and a fragment file of four bytes, and reads that deliver at most three bytes. -/
def simShort : Sim :=
  { sim0 with
    files := [("v.glsl", [118, 0, 49]), ("f.glsl", [102, 49, 50, 51])]
    chunk := 3 }

/-- The reference state with a fragment file of one byte whose end `ftell`
reports at 4, as a file system that reports sizes in whole blocks does. -/
def simTell : Sim := { sim0 with tells := [("f.glsl", 4)] }

/-- The reference state with a fragment file on which `ftell` fails. -/
def simTellFails : Sim := { sim0 with tells := [("f.glsl", -1)] }

/-- The reference state with a linker that fails. -/
def simNoLink : Sim := { sim0 with linkable := false }

/-- The reference state after a successful `shaderLoad` (program 3, linked) and
`shaderUse` of that program, and a second program 6 loaded but not in use. -/
def simInUse : Sim :=
  (shaderLoad simEnv "v.glsl" "f.glsl"
    (shaderUse simEnv 3 (shaderLoad simEnv "v.glsl" "f.glsl" (World.init sim0)).2)).2.sys

/-- The uniform values stored in a program of the reference driver. -/
def Sim.storeOf (m : Sim) (program : Nat) : Option (List (Int × UniformValue)) :=
  (m.findProgram program).map ProgramObj.store

/-! ## Views of a log -/

/-- The `fopen` calls of a log, oldest first: the path and whether it opened. -/
def opens (log : List Call) : List (String × Bool) :=
  log.filterMap (fun c => match c with
    | .fopen path _ ok => some (path, ok)
    | _ => none)

/-- The answers to the `malloc` calls of a log: whether the block was non-NULL. -/
def allocs (log : List Call) : List Bool :=
  log.filterMap (fun c => match c with
    | .malloc _ ok => some ok
    | _ => none)

/-- The `fread` calls of a log: bytes asked for and bytes delivered. -/
def reads (log : List Call) : List (Nat × Nat) :=
  log.filterMap (fun c => match c with
    | .fread _ count ret => some (count, ret)
    | _ => none)

/-- The `glCreateShader` calls of a log: the type and the handle returned. -/
def createdShaders (log : List Call) : List (Nat × Nat) :=
  log.filterMap (fun c => match c with
    | .glCreateShader type ret => some (type, ret)
    | _ => none)

/-- The handles the `glCreateProgram` calls of a log returned. -/
def createdPrograms (log : List Call) : List Nat :=
  log.filterMap (fun c => match c with
    | .glCreateProgram ret => some ret
    | _ => none)

/-- The shaders the `glCompileShader` calls of a log compile. -/
def compiled (log : List Call) : List Nat :=
  log.filterMap (fun c => match c with
    | .glCompileShader shader => some shader
    | _ => none)

/-- The programs the `glLinkProgram` calls of a log link. -/
def linked (log : List Call) : List Nat :=
  log.filterMap (fun c => match c with
    | .glLinkProgram program => some program
    | _ => none)

/-- The answers to the `GL_COMPILE_STATUS` queries of a log, oldest first. -/
def compileStatuses (log : List Call) : List Int :=
  log.filterMap (fun c => match c with
    | .glGetShaderiv _ pname params => if pname = GL_COMPILE_STATUS then some params else none
    | _ => none)

/-- The answers to the `GL_LINK_STATUS` queries of a log. -/
def linkStatuses (log : List Call) : List Int :=
  log.filterMap (fun c => match c with
    | .glGetProgramiv _ pname params => if pname = GL_LINK_STATUS then some params else none
    | _ => none)

/-- The shaders passed to `glDeleteShader`. -/
def deletedShaders (log : List Call) : List Nat :=
  log.filterMap (fun c => match c with
    | .glDeleteShader shader => some shader
    | _ => none)

/-- The programs passed to `glDeleteProgram`. -/
def deletedPrograms (log : List Call) : List Nat :=
  log.filterMap (fun c => match c with
    | .glDeleteProgram program => some program
    | _ => none)

/-- The `glShaderSource` calls of a log: the shader and the source text the
driver reads from the arguments. -/
def sources (log : List Call) : List (Nat × List Nat) :=
  log.filterMap (fun c => match c with
    | .glShaderSource shader count string length =>
      some (shader, sourceText (string.take count) length)
    | _ => none)

/-- Whether a call goes to the C library (and not to the driver). -/
def Call.isLibc : Call → Bool
  | .fopen _ _ _ => true
  | .fseekEnd => true
  | .fseekSet => true
  | .ftell _ => true
  | .malloc _ _ => true
  | .fread _ _ _ => true
  | .fclose => true
  | .free _ => true
  | .printf _ => true
  | _ => false

/-- The driver calls of a log. -/
def driverCalls (log : List Call) : List Call :=
  log.filter (fun c => !c.isLibc)

/-! ## The calls of one invocation

The lists of calls the functions of the header are shown to issue. -/

/-- How reading a file went: the file did not open, `ftell` answered `size` and
the buffer was not allocated, or it was and `delivered` bytes were read. -/
inductive ReadOutcome where
  | noFile
  | noMemory (size : Int)
  | done (size : Int) (delivered : Nat)
deriving DecidableEq, Repr

/-- Whether the outcome is a buffer. -/
def ReadOutcome.ok : ReadOutcome → Bool
  | .done _ _ => true
  | _ => false

/-- The calls `shaderReadFile` issues, by outcome. -/
def readCalls (path : String) : ReadOutcome → List Call
  | .noFile =>
    [Call.fopen path "rb" false, Call.printf ("Failed to open file: " ++ path ++ "\n")]
  | .noMemory size =>
    [Call.fopen path "rb" true, Call.fseekEnd, Call.ftell size, Call.fseekSet,
     Call.malloc (toSizeT (toLong (size + 1))) false,
     Call.printf ("Failed to allocate memory for file: " ++ path ++ "\n"), Call.fclose]
  | .done size delivered =>
    [Call.fopen path "rb" true, Call.fseekEnd, Call.ftell size, Call.fseekSet,
     Call.malloc (toSizeT (toLong (size + 1))) true, Call.fread 1 (toSizeT size) delivered,
     Call.fclose]

/-- The calls `shaderCompile` issues, given the handle and the status it got. -/
def compileCalls (type id : Nat) (src : List Nat) (status : Int) (infoLog : String) :
    List Call :=
  [Call.glCreateShader type id, Call.glShaderSource id 1 [src] none, Call.glCompileShader id,
   Call.glGetShaderiv id GL_COMPILE_STATUS status] ++
  (if status = 0 then
    [Call.glGetShaderInfoLog id 512 infoLog,
     Call.printf ("Failed Compile Shader: " ++ infoLog ++ "\n")]
   else [])

/-- The calls of the link step of `shaderLoad`, up to the status query. -/
def linkCalls (program vertex fragment : Nat) (status : Int) : List Call :=
  [Call.glCreateProgram program, Call.glAttachShader program vertex,
   Call.glAttachShader program fragment, Call.glLinkProgram program,
   Call.glGetProgramiv program GL_LINK_STATUS status]

/-- The upload a setter call issues to a location. -/
def Setter.upload (location : Int) : Setter → Upload
  | .setBool value => Upload.glUniform1i location (boolToInt value)
  | .setInt value => Upload.glUniform1i location value
  | .setFloat value => Upload.glUniform1f location value
  | .setVec2 value => Upload.glUniform2fv location 1 [value.x, value.y]
  | .setVec2xy x y => Upload.glUniform2f location x y
  | .setVec3 value => Upload.glUniform3fv location 1 [value.x, value.y, value.z]
  | .setVec3xyz x y z => Upload.glUniform3f location x y z
  | .setVec4 value => Upload.glUniform4fv location 1 [value.x, value.y, value.z, value.w]
  | .setVec4xyzw x y z w => Upload.glUniform4f location x y z w
  | .setMat2 mat => Upload.glUniformMatrix2fv location 1 GL_FALSE mat.ptr
  | .setMat3 mat => Upload.glUniformMatrix3fv location 1 GL_FALSE mat.ptr
  | .setMat4 mat => Upload.glUniformMatrix4fv location 1 GL_FALSE mat.ptr

/-- A `long` is below 2^63. -/
theorem toLong_lt (x : Int) : toLong x < 9223372036854775808 := by
  unfold toLong
  omega

/-- The size of the buffer for a file of `n` bytes, `n` being a `long`. -/
theorem toSizeT_succ (n : Nat) (h : (n : Int) < 9223372036854775808) :
    toSizeT (toLong ((n : Int) + 1)) = n + 1 := by
  unfold toSizeT toLong
  omega

/-- A non-negative `long` converts to itself. -/
theorem toSizeT_natCast (n : Nat) (h : (n : Int) < 9223372036854775808) :
    toSizeT (n : Int) = n := by
  unfold toSizeT
  omega

/-- The calls of `shaderReadFile`, and whether it returns a buffer. -/
theorem shaderReadFile_calls (env : Env σ) (path : String) (w : World σ) :
    ∃ o, (shaderReadFile env path w).2.log = w.log ++ readCalls path o ∧
      (shaderReadFile env path w).1.isSome = o.ok := by
  unfold shaderReadFile
  simp only [fopen, fseekEnd, fseekSet, ftell, malloc, fread, store, fclose, printf,
    World.emit, World.note, World.undefined]
  cases h1 : (env.fopen path w.sys).1 with
  | none => exact ⟨.noFile, by simp [readCalls], by simp [ReadOutcome.ok]⟩
  | some b =>
    simp only [Option.map_some', Option.isSome_some]
    generalize toLong (env.ftell ⟨path, b⟩ (env.fopen path w.sys).2) = size
    cases h2 : (env.malloc (toSizeT (toLong (size + 1))) (env.fopen path w.sys).2).1 with
    | none => exact ⟨.noMemory size, by simp [readCalls], by simp [ReadOutcome.ok]⟩
    | some g =>
      refine ⟨.done size (delivered ⟨path, b⟩ (toSizeT size)
        (env.fread (toSizeT size)
          (env.malloc (toSizeT (toLong (size + 1))) (env.fopen path w.sys).2).2).1), ?_, ?_⟩
      · simp only [readCalls, Option.map_some']
        split_ifs <;> simp
      · simp [ReadOutcome.ok]

theorem shaderReadFile_log (env : Env σ) (path : String) (w : World σ) :
    ∃ o s' u, (shaderReadFile env path w).2 = ⟨s', w.log ++ readCalls path o, u⟩ ∧
      (shaderReadFile env path w).1.isSome = o.ok := by
  obtain ⟨o, h, k⟩ := shaderReadFile_calls env path w
  refine ⟨o, (shaderReadFile env path w).2.sys, (shaderReadFile env path w).2.ub, ?_, k⟩
  rw [← h]

/-- When `ftell` fails on a file of one byte, `shaderReadFile` asks for a block of
0 bytes and for a read of 2^64 - 1 bytes; the byte delivered and the zero byte
at index -1 are written outside the block. -/
theorem shaderReadFile_tell_fails :
    (shaderReadFile simEnv "f.glsl" (World.init simTellFails)).2.log =
      [Call.fopen "f.glsl" "rb" true, Call.fseekEnd, Call.ftell (-1), Call.fseekSet,
       Call.malloc 0 true, Call.fread 1 18446744073709551615 1, Call.fclose] ∧
    (shaderReadFile simEnv "f.glsl" (World.init simTellFails)).1 = some [] ∧
    (shaderReadFile simEnv "f.glsl" (World.init simTellFails)).2.ub = true := by
  decide

/-- A file that does not open gives NULL. -/
theorem shaderReadFile_noFile (env : Env σ) (path : String) (w : World σ)
    (h : (env.fopen path w.sys).1 = none) : (shaderReadFile env path w).1 = none := by
  simp [shaderReadFile, fopen, h]

/-- The terminator written over the last byte of a block whose start holds `b`. -/
theorem set_terminator (b rest : List Nat) (h : rest.length = 1) :
    (b ++ rest).set b.length 0 = b ++ [0] := by
  match rest, h with
  | [x], _ => simp [List.set_append]

/-- A file that opens, whose end `ftell` reports at its number of bytes, with the
buffer allocated and all bytes delivered, gives the bytes of the file followed
by a zero byte, and no write goes outside the buffer. -/
theorem shaderReadFile_full (env : Env σ) (path : String) (w : World σ) (b : List Nat)
    (g : Nat → Nat) (s1 s2 : σ)
    (hopen : env.fopen path w.sys = (some b, s1))
    (htell : toLong (env.ftell ⟨path, b⟩ s1) = (b.length : Int))
    (halloc : env.malloc (b.length + 1) s1 = (some g, s2))
    (hread : b.length ≤ (env.fread b.length s2).1) :
    shaderReadFile env path w =
      (some (b ++ [0]),
        ⟨(env.fread b.length s2).2, w.log ++ readCalls path (.done b.length b.length),
          w.ub⟩) := by
  have hb : (b.length : Int) < 9223372036854775808 := htell ▸ toLong_lt _
  have hk : delivered ⟨path, b⟩ b.length (env.fread b.length s2).1 = b.length := by
    simp [delivered, hread]
  simp only [shaderReadFile, fopen, fseekEnd, fseekSet, ftell, malloc, fread, store, fclose,
    World.emit, World.note, hopen, htell, toSizeT_succ _ hb, toSizeT_natCast _ hb, halloc,
    Option.map_some', Option.isSome_some, hk]
  have hlen : (List.take (List.map g (List.range (b.length + 1))).length (List.take b.length b) ++
      List.drop b.length (List.map g (List.range (b.length + 1)))).length = b.length + 1 := by
    simp
  have hbuf : List.take (List.map g (List.range (b.length + 1))).length (List.take b.length b) ++
      List.drop b.length (List.map g (List.range (b.length + 1))) =
      b ++ List.drop b.length (List.map g (List.range (b.length + 1))) := by
    simp
  have hin : (0 : Int) ≤ (b.length : Int) ∧ (b.length : Int) <
      ((List.take (List.map g (List.range (b.length + 1))).length (List.take b.length b) ++
      List.drop b.length (List.map g (List.range (b.length + 1)))).length : Int) := by
    rw [hlen]
    omega
  have hle : b.length ≤ (List.map g (List.range (b.length + 1))).length := by simp
  rw [if_pos hin, if_pos hle]
  simp only [hbuf, Int.toNat_ofNat, readCalls, List.append_assoc, List.singleton_append,
    toSizeT_succ _ hb, toSizeT_natCast _ hb]
  congr 2
  apply set_terminator
  simp

theorem shaderCompile_log (env : Env σ) (type : Nat) (src : List Nat) (w : World σ) :
    ∃ id status infoLog s',
      shaderCompile env type src w =
        (if status = 0 then 0 else id,
          ⟨s', w.log ++ compileCalls type id src status infoLog, w.ub⟩) := by
  unfold shaderCompile
  simp only [glCreateShader, glShaderSource, glCompileShader, glGetShaderiv,
    glGetShaderInfoLog, printf, World.emit, World.note]
  generalize env.glCreateShader type w.sys = c
  generalize env.glGetShaderiv c.1 GL_COMPILE_STATUS
    (env.glCompileShader c.1 (env.glShaderSource c.1 1 [src] none c.2)) = g
  by_cases h : g.1 = 0
  · refine ⟨c.1, g.1, (env.glGetShaderInfoLog c.1 512 g.2).1,
      (env.glGetShaderInfoLog c.1 512 g.2).2, ?_⟩
    simp [h, compileCalls]
  · refine ⟨c.1, g.1, "", g.2, ?_⟩
    simp [h, compileCalls]

/-- Every run of `shaderLoad` is one of four: a file was not read; a shader
handle came back zero; the link status was false; or the program is returned.
Each comes with the calls it issues. -/
theorem shaderLoad_cases (env : Env σ) (vertex_path fragment_path : String) (w : World σ) :
    ∃ o1 o2,
      (shaderReadFile env vertex_path w).1.isSome = o1.ok ∧
      (shaderReadFile env fragment_path (shaderReadFile env vertex_path w).2).1.isSome = o2.ok ∧
      (((o1.ok = false ∨ o2.ok = false) ∧
        shaderLoad env vertex_path fragment_path w =
          (0, ⟨(shaderReadFile env fragment_path (shaderReadFile env vertex_path w).2).2.sys,
            w.log ++ readCalls vertex_path o1 ++ readCalls fragment_path o2 ++
            [Call.printf "Failed Load Shader File\n"],
            (shaderReadFile env fragment_path (shaderReadFile env vertex_path w).2).2.ub⟩)) ∨
      (o1.ok = true ∧ o2.ok = true ∧ ∃ bv bf idv stv msgv idf stf msgf,
        (shaderReadFile env vertex_path w).1 = some bv ∧
        (shaderReadFile env fragment_path (shaderReadFile env vertex_path w).2).1 = some bf ∧
        ((((if stv = 0 then 0 else idv) = 0 ∨ (if stf = 0 then 0 else idf) = 0) ∧ ∃ s',
          shaderLoad env vertex_path fragment_path w =
            (0, ⟨s', w.log ++ readCalls vertex_path o1 ++ readCalls fragment_path o2 ++
              compileCalls GL_VERTEX_SHADER idv bv stv msgv ++
              compileCalls GL_FRAGMENT_SHADER idf bf stf msgf ++ [Call.free bv, Call.free bf] ++
              (if (if stv = 0 then 0 else idv) ≠ 0 then [Call.glDeleteShader idv] else []) ++
              (if (if stf = 0 then 0 else idf) ≠ 0 then [Call.glDeleteShader idf] else []),
            (shaderReadFile env fragment_path (shaderReadFile env vertex_path w).2).2.ub⟩)) ∨
         (stv ≠ 0 ∧ idv ≠ 0 ∧ stf ≠ 0 ∧ idf ≠ 0 ∧ ∃ p st msg s',
          (st = 0 ∧
            shaderLoad env vertex_path fragment_path w =
              (0, ⟨s', w.log ++ readCalls vertex_path o1 ++ readCalls fragment_path o2 ++
                compileCalls GL_VERTEX_SHADER idv bv stv msgv ++
                compileCalls GL_FRAGMENT_SHADER idf bf stf msgf ++ [Call.free bv, Call.free bf] ++
                linkCalls p idv idf st ++
                [Call.glGetProgramInfoLog p 512 msg,
                 Call.printf ("Failed Link Shader: " ++ msg ++ "\n"),
                 Call.glDeleteProgram p],
            (shaderReadFile env fragment_path (shaderReadFile env vertex_path w).2).2.ub⟩)) ∨
          (st ≠ 0 ∧
            shaderLoad env vertex_path fragment_path w =
              (p, ⟨s', w.log ++ readCalls vertex_path o1 ++ readCalls fragment_path o2 ++
                compileCalls GL_VERTEX_SHADER idv bv stv msgv ++
                compileCalls GL_FRAGMENT_SHADER idf bf stf msgf ++ [Call.free bv, Call.free bf] ++
                linkCalls p idv idf st ++
                [Call.glDeleteShader idv, Call.glDeleteShader idf],
            (shaderReadFile env fragment_path (shaderReadFile env vertex_path w).2).2.ub⟩)))))) := by
  unfold shaderLoad
  obtain ⟨o1, s1, u1, h1, k1⟩ := shaderReadFile_log env vertex_path w
  generalize shaderReadFile env vertex_path w = r1 at *
  obtain ⟨res1, w1⟩ := r1
  simp only at h1 k1
  subst h1
  dsimp only
  obtain ⟨o2, s2, u2, h2, k2⟩ := shaderReadFile_log env fragment_path
    ⟨s1, w.log ++ readCalls vertex_path o1, u1⟩
  generalize shaderReadFile env fragment_path ⟨s1, w.log ++ readCalls vertex_path o1, u1⟩ = r2
    at *
  obtain ⟨res2, w2⟩ := r2
  simp only at h2 k2
  subst h2
  dsimp only
  refine ⟨o1, o2, k1, k2, ?_⟩
  cases res1 with
  | none =>
    left
    refine ⟨Or.inl (by simpa using k1.symm), ?_⟩
    cases res2 <;> simp [printf, World.note, World.emit]
  | some bv =>
    cases res2 with
    | none =>
      left
      refine ⟨Or.inr (by simpa using k2.symm), ?_⟩
      simp [printf, World.note, World.emit]
    | some bf =>
      right
      obtain ⟨idv, stv, msgv, s3, h3⟩ := shaderCompile_log env GL_VERTEX_SHADER bv
        ⟨s2, w.log ++ readCalls vertex_path o1 ++ readCalls fragment_path o2, u2⟩
      obtain ⟨idf, stf, msgf, s4, h4⟩ := shaderCompile_log env GL_FRAGMENT_SHADER bf
        ⟨s3, w.log ++ readCalls vertex_path o1 ++ readCalls fragment_path o2 ++
          compileCalls GL_VERTEX_SHADER idv bv stv msgv, u2⟩
      refine ⟨by simpa using k1.symm, by simpa using k2.symm, bv, bf, idv, stv, msgv, idf, stf,
        msgf, rfl, rfl, ?_⟩
      simp only [h3, h4]
      by_cases hv : stv = 0
      · left
        refine ⟨Or.inl (by simp [hv]), ?_⟩
        by_cases hf : (if stf = 0 then 0 else idf) = 0
        · exact ⟨s4, by simp [hv, hf, free, World.note, World.emit]⟩
        · refine ⟨env.glDeleteShader (if stf = 0 then 0 else idf) s4, ?_⟩
          have hf0 : stf ≠ 0 := by
            intro h
            simp [h] at hf
          have hf1 : idf ≠ 0 := by
            intro h
            simp [h] at hf
          simp [hv, hf0, hf1, free, glDeleteShader, World.note, World.emit]
      · by_cases hv1 : idv = 0
        · left
          refine ⟨Or.inl (by simp [hv, hv1]), ?_⟩
          by_cases hf : (if stf = 0 then 0 else idf) = 0
          · exact ⟨s4, by simp [hv, hv1, hf, free, World.note, World.emit]⟩
          · refine ⟨env.glDeleteShader (if stf = 0 then 0 else idf) s4, ?_⟩
            have hf0 : stf ≠ 0 := by
              intro h
              simp [h] at hf
            have hf1 : idf ≠ 0 := by
              intro h
              simp [h] at hf
            simp [hv, hv1, hf0, hf1, free, glDeleteShader, World.note, World.emit]
        · by_cases hf : (if stf = 0 then 0 else idf) = 0
          · left
            refine ⟨Or.inr hf, env.glDeleteShader idv s4, ?_⟩
            simp [hv, hv1, hf, free, glDeleteShader, World.note, World.emit]
          · right
            have hf0 : stf ≠ 0 := by
              intro h
              simp [h] at hf
            have hf1 : idf ≠ 0 := by
              intro h
              simp [h] at hf
            refine ⟨hv, hv1, hf0, hf1, ?_⟩
            simp only [hv, hv1, hf0, hf1, if_false, or_self, free, glCreateProgram,
              glAttachShader, glLinkProgram, glGetProgramiv, glGetProgramInfoLog, glDeleteProgram,
              glDeleteShader, printf, World.note, World.emit]
            generalize env.glCreateProgram s4 = c
            generalize env.glGetProgramiv c.1 GL_LINK_STATUS
              (env.glLinkProgram c.1 (env.glAttachShader c.1 idf
                (env.glAttachShader c.1 idv c.2))) = g
            by_cases hl : g.1 = 0
            · refine ⟨c.1, g.1, (env.glGetProgramInfoLog c.1 512 g.2).1,
                env.glDeleteProgram c.1 (env.glGetProgramInfoLog c.1 512 g.2).2, Or.inl ⟨hl, ?_⟩⟩
              simp [hl, linkCalls]
            · refine ⟨c.1, g.1, "",
                env.glDeleteShader idf (env.glDeleteShader idv g.2), Or.inr ⟨hl, ?_⟩⟩
              simp [hl, linkCalls]

/-- C3, as stated, fails. The file opens and holds one byte, the buffer is allocated and
the read delivers that byte, all there is; but `ftell` reported the end of the
stream at 4, so the buffer has five bytes: the byte of the file, three bytes
that were never written, and the zero byte. -/
theorem shaderReadFile_buffer_longer :
    simEnv.fopen "f.glsl" simTell = (some [102], simTell) ∧
    opens (shaderReadFile simEnv "f.glsl" (World.init simTell)).2.log = [("f.glsl", true)] ∧
    allocs (shaderReadFile simEnv "f.glsl" (World.init simTell)).2.log = [true] ∧
    reads (shaderReadFile simEnv "f.glsl" (World.init simTell)).2.log = [(4, 1)] ∧
    (shaderReadFile simEnv "f.glsl" (World.init simTell)).1 = some [102, 170, 170, 170, 0] ∧
    (shaderReadFile simEnv "f.glsl" (World.init simTell)).1 ≠ some ([102] ++ [0]) := by
  decide

/-- C3, as amended. The function `shaderReadFile` returns NULL for a path that does not
open. For a path that opens on the bytes `b`, when `ftell` reports the end of
the stream at `b.length`, the buffer of `b.length + 1` bytes is allocated and
the read delivers all `b.length` bytes, it returns the buffer `b` followed by
one zero byte, and writes nowhere else. For an empty file (reported at 0) that
buffer is the empty string, and `shaderLoad` (the other file being read too)
creates the shader, gives it that empty string, whose text is empty, and
compiles it, be the empty file the vertex file or the fragment file. -/
theorem shaderReadFile_whole_file (env : Env σ) (path : String) (w : World σ) :
    ((env.fopen path w.sys).1 = none → (shaderReadFile env path w).1 = none) ∧
    (∀ b g s1 s2, env.fopen path w.sys = (some b, s1) →
      toLong (env.ftell ⟨path, b⟩ s1) = (b.length : Int) →
      env.malloc (b.length + 1) s1 = (some g, s2) →
      b.length ≤ (env.fread b.length s2).1 →
      (shaderReadFile env path w).1 = some (b ++ [0]) ∧ (b ++ [0]).length = b.length + 1 ∧
      (shaderReadFile env path w).2.ub = w.ub) ∧
    (∀ g s1 s2 fragment_path bf, env.fopen path w.sys = (some [], s1) →
      toLong (env.ftell ⟨path, []⟩ s1) = 0 →
      env.malloc 1 s1 = (some g, s2) →
      (shaderReadFile env fragment_path (shaderReadFile env path w).2).1 = some bf →
      (shaderReadFile env path w).1 = some [0] ∧ sourceText [[0]] none = [] ∧
      ∃ id, Call.glCreateShader GL_VERTEX_SHADER id ∈
          (shaderLoad env path fragment_path w).2.log ∧
        Call.glShaderSource id 1 [[0]] none ∈ (shaderLoad env path fragment_path w).2.log ∧
        Call.glCompileShader id ∈ (shaderLoad env path fragment_path w).2.log) ∧
    (∀ g s1 s2 vertex_path bv, (shaderReadFile env vertex_path w).1 = some bv →
      env.fopen path (shaderReadFile env vertex_path w).2.sys = (some [], s1) →
      toLong (env.ftell ⟨path, []⟩ s1) = 0 →
      env.malloc 1 s1 = (some g, s2) →
      ∃ id, Call.glCreateShader GL_FRAGMENT_SHADER id ∈
          (shaderLoad env vertex_path path w).2.log ∧
        Call.glShaderSource id 1 [[0]] none ∈ (shaderLoad env vertex_path path w).2.log ∧
        Call.glCompileShader id ∈ (shaderLoad env vertex_path path w).2.log) := by
  refine ⟨shaderReadFile_noFile env path w, ?_, ?_, ?_⟩
  · intro b g s1 s2 hopen htell halloc hread
    rw [shaderReadFile_full env path w b g s1 s2 hopen htell halloc hread]
    simp
  · intro g s1 s2 fragment_path bf hopen htell halloc hbf
    have hv := shaderReadFile_full env path w [] g s1 s2 hopen htell halloc (Nat.zero_le _)
    have hv1 : (shaderReadFile env path w).1 = some [0] := by rw [hv]; rfl
    refine ⟨hv1, by simp [sourceText, cString], ?_⟩
    obtain ⟨o1, o2, k1, k2, h⟩ := shaderLoad_cases env path fragment_path w
    rw [hv1] at k1
    rw [hbf] at k2
    rcases h with ⟨h, -⟩ | ⟨-, -, bv, bf', idv, stv, msgv, idf, stf, msgf, e1, -, h⟩
    · simp [← k1, ← k2] at h
    · rw [hv1] at e1
      obtain rfl : bv = [0] := by simpa using e1.symm
      refine ⟨idv, ?_⟩
      generalize shaderLoad env path fragment_path w = r at *
      rcases h with ⟨_, s', h⟩ | ⟨_, _, _, _, p, st, msg, s', ⟨_, h⟩ | ⟨_, h⟩⟩
      all_goals subst h
      all_goals simp [compileCalls]
  · intro g s1 s2 vertex_path bv hbv hopen htell halloc
    have hf := shaderReadFile_full env path (shaderReadFile env vertex_path w).2 [] g s1 s2
      hopen htell halloc (Nat.zero_le _)
    have hf1 : (shaderReadFile env path (shaderReadFile env vertex_path w).2).1 = some [0] := by
      rw [hf]
      rfl
    obtain ⟨o1, o2, k1, k2, h⟩ := shaderLoad_cases env vertex_path path w
    rw [hbv] at k1
    rw [hf1] at k2
    rcases h with ⟨h, -⟩ | ⟨-, -, bv', bf, idv, stv, msgv, idf, stf, msgf, -, e2, h⟩
    · simp [← k1, ← k2] at h
    · rw [hf1] at e2
      obtain rfl : bf = [0] := by simpa using e2.symm
      refine ⟨idf, ?_⟩
      generalize shaderLoad env vertex_path path w = r at *
      rcases h with ⟨_, s', h⟩ | ⟨_, _, _, _, p, st, msg, s', ⟨_, h⟩ | ⟨_, h⟩⟩
      all_goals subst h
      all_goals simp [compileCalls]

/-- C3, as amended, at concrete inputs: a missing file, a file of two bytes, an
empty file read as the vertex file and as the fragment file. -/
theorem shaderReadFile_whole_file_witness :
    (shaderReadFile simEnv "missing.glsl" (World.init sim0)).1 = none ∧
    (shaderReadFile simEnv "v.glsl" (World.init sim0)).1 = some [118, 49, 0] ∧
    (shaderReadFile simEnv "empty.glsl" (World.init sim0)).1 = some [0] ∧
    (∃ id, Call.glCreateShader GL_FRAGMENT_SHADER id ∈
        (shaderLoad simEnv "v.glsl" "empty.glsl" (World.init sim0)).2.log ∧
      Call.glShaderSource id 1 [[0]] none ∈
        (shaderLoad simEnv "v.glsl" "empty.glsl" (World.init sim0)).2.log ∧
      Call.glCompileShader id ∈
        (shaderLoad simEnv "v.glsl" "empty.glsl" (World.init sim0)).2.log) :=
  ⟨(shaderReadFile_whole_file simEnv "missing.glsl" (World.init sim0)).1 rfl,
   ((shaderReadFile_whole_file simEnv "v.glsl" (World.init sim0)).2.1 [118, 49] _ _ _
      rfl (by decide) rfl (by decide)).1,
   ((shaderReadFile_whole_file simEnv "empty.glsl" (World.init sim0)).2.2.1 _ _ _ "f.glsl"
      [102, 0] rfl (by decide) rfl (by decide)).1,
   (shaderReadFile_whole_file simEnv "empty.glsl" (World.init sim0)).2.2.2 _ _ _ "v.glsl"
      [118, 49, 0] (by decide) rfl (by decide) rfl⟩

/-- The text of a buffer that holds `b` and a terminator is `b`, when `b` has no
zero byte. -/
theorem cString_terminated (b : List Nat) (h : 0 ∉ b) : cString (b ++ [0]) = b := by
  induction b with
  | nil => simp [cString]
  | cons x xs ih =>
    have hx : x ≠ 0 := fun e => h (by simp [e])
    have hxs : 0 ∉ xs := fun e => h (by simp [e])
    have e := ih hxs
    simp only [cString, List.cons_append, List.takeWhile_cons] at e ⊢
    simp [hx]
    simpa using e

/-- C1, as amended. When both files open, `ftell` reports the end of each at its number
of bytes, both are read in full (each buffer is allocated and each read delivers
every byte), neither holds a zero byte, both compile status queries answer true
and the link status query answers true, `shaderLoad` returns the handle `glCreateProgram` returned; its driver calls are exactly:
create, source, compile and query a vertex shader on the buffer of the vertex
file, the same for a fragment shader on the buffer of the fragment file, create
the program, attach the vertex shader and the fragment shader, link, query the
link status, delete the two shaders. The source texts the driver reads are the
contents of the two files, and no program is deleted. -/
theorem shaderLoad_success (env : Env σ) (vertex_path fragment_path : String) (s : σ)
    (bv bf : List Nat) (gv gf : Nat → Nat) (s1 s2 s3 s4 : σ)
    (hov : env.fopen vertex_path s = (some bv, s1))
    (htv : toLong (env.ftell ⟨vertex_path, bv⟩ s1) = (bv.length : Int))
    (hav : env.malloc (bv.length + 1) s1 = (some gv, s2))
    (hrv : bv.length ≤ (env.fread bv.length s2).1)
    (hof : env.fopen fragment_path (env.fread bv.length s2).2 = (some bf, s3))
    (htf : toLong (env.ftell ⟨fragment_path, bf⟩ s3) = (bf.length : Int))
    (haf : env.malloc (bf.length + 1) s3 = (some gf, s4))
    (hrf : bf.length ≤ (env.fread bf.length s4).1)
    (hzv : 0 ∉ bv) (hzf : 0 ∉ bf)
    (hc : ∃ cv cf,
      compileStatuses (shaderLoad env vertex_path fragment_path (World.init s)).2.log = [cv, cf] ∧
      cv ≠ 0 ∧ cf ≠ 0)
    (hl : ∃ st,
      linkStatuses (shaderLoad env vertex_path fragment_path (World.init s)).2.log = [st] ∧
      st ≠ 0) :
    ∃ vertex fragment program cv cf st,
      (shaderLoad env vertex_path fragment_path (World.init s)).1 = program ∧
      driverCalls (shaderLoad env vertex_path fragment_path (World.init s)).2.log =
        [Call.glCreateShader GL_VERTEX_SHADER vertex,
         Call.glShaderSource vertex 1 [bv ++ [0]] none,
         Call.glCompileShader vertex,
         Call.glGetShaderiv vertex GL_COMPILE_STATUS cv,
         Call.glCreateShader GL_FRAGMENT_SHADER fragment,
         Call.glShaderSource fragment 1 [bf ++ [0]] none,
         Call.glCompileShader fragment,
         Call.glGetShaderiv fragment GL_COMPILE_STATUS cf,
         Call.glCreateProgram program,
         Call.glAttachShader program vertex,
         Call.glAttachShader program fragment,
         Call.glLinkProgram program,
         Call.glGetProgramiv program GL_LINK_STATUS st,
         Call.glDeleteShader vertex,
         Call.glDeleteShader fragment] ∧
      sources (shaderLoad env vertex_path fragment_path (World.init s)).2.log =
        [(vertex, bv), (fragment, bf)] ∧
      deletedPrograms (shaderLoad env vertex_path fragment_path (World.init s)).2.log = [] := by
  have hv := shaderReadFile_full env vertex_path (World.init s) bv gv s1 s2 hov htv hav hrv
  have hf := shaderReadFile_full env fragment_path
    (shaderReadFile env vertex_path (World.init s)).2 bf gf s3 s4
    (by rw [hv]; exact hof) htf haf hrf
  obtain ⟨o1, o2, k1, k2, h⟩ := shaderLoad_cases env vertex_path fragment_path (World.init s)
  rw [hf] at k2 h
  rw [hv] at k1 h
  have tv := cString_terminated bv hzv
  have tf := cString_terminated bf hzf
  obtain ⟨cv, cf, hc, hcv, hcf⟩ := hc
  obtain ⟨st', hl, hst⟩ := hl
  clear hov htv hav hrv hof htf haf hrf hv hf
  generalize shaderLoad env vertex_path fragment_path (World.init s) = r at *
  rcases h with ⟨h, -⟩ | ⟨-, -, bv', bf', idv, stv, msgv, idf, stf, msgf, e1, e2, h⟩
  · simp [← k1, ← k2] at h
  · obtain rfl : bv' = bv ++ [0] := by simpa using e1.symm
    obtain rfl : bf' = bf ++ [0] := by simpa using e2.symm
    clear e1 e2
    cases o1 <;> simp [ReadOutcome.ok] at k1
    cases o2 <;> simp [ReadOutcome.ok] at k2
    rcases h with ⟨_, s', h⟩ | ⟨h1, h2, h3, h4, p, st, msg, s', ⟨h5, h⟩ | ⟨h5, h⟩⟩
    · subst h
      exfalso
      simp only [compileCalls] at hl
      split_ifs at hl <;>
        simp [linkStatuses, readCalls, World.init] at hl
    · subst h
      exfalso
      simp [compileCalls, h1, h3, linkStatuses, readCalls, linkCalls, World.init] at hl
      exact hst (hl ▸ h5)
    · subst h
      refine ⟨idv, idf, p, stv, stf, st, rfl, ?_, ?_, ?_⟩
      · simp [compileCalls, h1, h3, driverCalls, readCalls, linkCalls, World.init, Call.isLibc]
      · simp [compileCalls, h1, h3, sources, readCalls, linkCalls, World.init, sourceText, tv, tf]
      · simp [compileCalls, h1, h3, deletedPrograms, readCalls, linkCalls, World.init]

/-- C1, as amended, at a concrete input: the two shader files of the reference
state. -/
theorem shaderLoad_success_witness :
    ∃ vertex fragment program cv cf st,
      (shaderLoad simEnv "v.glsl" "f.glsl" (World.init sim0)).1 = program ∧
      driverCalls (shaderLoad simEnv "v.glsl" "f.glsl" (World.init sim0)).2.log =
        [Call.glCreateShader GL_VERTEX_SHADER vertex,
         Call.glShaderSource vertex 1 [[118, 49] ++ [0]] none,
         Call.glCompileShader vertex,
         Call.glGetShaderiv vertex GL_COMPILE_STATUS cv,
         Call.glCreateShader GL_FRAGMENT_SHADER fragment,
         Call.glShaderSource fragment 1 [[102] ++ [0]] none,
         Call.glCompileShader fragment,
         Call.glGetShaderiv fragment GL_COMPILE_STATUS cf,
         Call.glCreateProgram program,
         Call.glAttachShader program vertex,
         Call.glAttachShader program fragment,
         Call.glLinkProgram program,
         Call.glGetProgramiv program GL_LINK_STATUS st,
         Call.glDeleteShader vertex,
         Call.glDeleteShader fragment] ∧
      sources (shaderLoad simEnv "v.glsl" "f.glsl" (World.init sim0)).2.log =
        [(vertex, [118, 49]), (fragment, [102])] ∧
      deletedPrograms (shaderLoad simEnv "v.glsl" "f.glsl" (World.init sim0)).2.log = [] :=
  shaderLoad_success simEnv "v.glsl" "f.glsl" sim0 [118, 49] [102] _ _ _ _ _ _
    rfl (by decide) rfl (by decide) rfl (by decide) rfl (by decide) (by decide) (by decide)
    ⟨1, 1, by decide, by decide, by decide⟩ ⟨1, by decide, by decide⟩

/-- C1, as stated, fails. Both files open, both compile status queries and the link status
query answer true and the program created is returned, but the vertex file holds
a zero byte and the read of the fragment file delivers three of its four bytes:
the source text of neither shader is the contents of its file. In a second run
both files are read in full and hold no zero byte, but `ftell` reports the end
of the fragment file of one byte at 4: the source text of the fragment shader is
that byte and three bytes that were never written. -/
theorem shaderLoad_source_not_contents :
    simEnv.fopen "v.glsl" simShort = (some [118, 0, 49], simShort) ∧
    simEnv.fopen "f.glsl" simShort = (some [102, 49, 50, 51], simShort) ∧
    opens (shaderLoad simEnv "v.glsl" "f.glsl" (World.init simShort)).2.log =
      [("v.glsl", true), ("f.glsl", true)] ∧
    reads (shaderLoad simEnv "v.glsl" "f.glsl" (World.init simShort)).2.log = [(3, 3), (4, 3)] ∧
    compileStatuses (shaderLoad simEnv "v.glsl" "f.glsl" (World.init simShort)).2.log = [1, 1] ∧
    linkStatuses (shaderLoad simEnv "v.glsl" "f.glsl" (World.init simShort)).2.log = [1] ∧
    createdShaders (shaderLoad simEnv "v.glsl" "f.glsl" (World.init simShort)).2.log =
      [(GL_VERTEX_SHADER, 1), (GL_FRAGMENT_SHADER, 2)] ∧
    createdPrograms (shaderLoad simEnv "v.glsl" "f.glsl" (World.init simShort)).2.log = [3] ∧
    (shaderLoad simEnv "v.glsl" "f.glsl" (World.init simShort)).1 = 3 ∧
    sources (shaderLoad simEnv "v.glsl" "f.glsl" (World.init simShort)).2.log =
      [(1, [118]), (2, [102, 49, 50, 170])] ∧
    sources (shaderLoad simEnv "v.glsl" "f.glsl" (World.init simShort)).2.log ≠
      [(1, [118, 0, 49]), (2, [102, 49, 50, 51])] ∧
    simEnv.fopen "v.glsl" simTell = (some [118, 49], simTell) ∧
    simEnv.fopen "f.glsl" simTell = (some [102], simTell) ∧
    opens (shaderLoad simEnv "v.glsl" "f.glsl" (World.init simTell)).2.log =
      [("v.glsl", true), ("f.glsl", true)] ∧
    reads (shaderLoad simEnv "v.glsl" "f.glsl" (World.init simTell)).2.log = [(2, 2), (4, 1)] ∧
    compileStatuses (shaderLoad simEnv "v.glsl" "f.glsl" (World.init simTell)).2.log = [1, 1] ∧
    linkStatuses (shaderLoad simEnv "v.glsl" "f.glsl" (World.init simTell)).2.log = [1] ∧
    (shaderLoad simEnv "v.glsl" "f.glsl" (World.init simTell)).1 = 3 ∧
    sources (shaderLoad simEnv "v.glsl" "f.glsl" (World.init simTell)).2.log =
      [(1, [118, 49]), (2, [102, 170, 170, 170])] ∧
    sources (shaderLoad simEnv "v.glsl" "f.glsl" (World.init simTell)).2.log ≠
      [(1, [118, 49]), (2, [102])] := by
  decide

/-- C7, as stated, fails. For a type the driver does not know, `glCreateShader` returns 0
and the status query writes nothing, so the status read is not false;
`shaderCompile` returns 0 all the same. -/
theorem shaderCompile_zero_with_true_status :
    createdShaders (shaderCompile simEnv 0 [118, 0] (World.init sim0)).2.log = [(0, 0)] ∧
    compileStatuses (shaderCompile simEnv 0 [118, 0] (World.init sim0)).2.log = [1] ∧
    (shaderCompile simEnv 0 [118, 0] (World.init sim0)).1 = 0 := by
  decide

/-- C7, as amended. The function `shaderCompile` creates one shader of the given type, gives
it `src` as its single source string, compiles it and queries the compile
status. It returns 0 when the status is false and the handle `glCreateShader`
returned when the status is true; so, when that handle is not 0, it returns 0 if
and only if the status is false. -/
theorem shaderCompile_status (env : Env σ) (type : Nat) (src : List Nat) (s : σ) :
    ∃ id status,
      (driverCalls (shaderCompile env type src (World.init s)).2.log).take 4 =
        [Call.glCreateShader type id, Call.glShaderSource id 1 [src] none,
         Call.glCompileShader id, Call.glGetShaderiv id GL_COMPILE_STATUS status] ∧
      createdShaders (shaderCompile env type src (World.init s)).2.log = [(type, id)] ∧
      sources (shaderCompile env type src (World.init s)).2.log = [(id, cString src)] ∧
      compiled (shaderCompile env type src (World.init s)).2.log = [id] ∧
      compileStatuses (shaderCompile env type src (World.init s)).2.log = [status] ∧
      (status = 0 → (shaderCompile env type src (World.init s)).1 = 0) ∧
      (status ≠ 0 → (shaderCompile env type src (World.init s)).1 = id) ∧
      (id ≠ 0 → ((shaderCompile env type src (World.init s)).1 = 0 ↔ status = 0)) := by
  obtain ⟨id, status, msg, s', h⟩ := shaderCompile_log env type src (World.init s)
  refine ⟨id, status, ?_⟩
  generalize shaderCompile env type src (World.init s) = r at *
  subst h
  simp only [compileCalls]
  split_ifs with h0 <;>
    simp [h0, driverCalls, createdShaders, sources, compiled, compileStatuses, World.init,
      Call.isLibc, sourceText]

/-- C8 fails on the code. A shader whose compile status is false is never deleted:
`shaderCompile` returns 0 instead of its handle, and `shaderLoad` returns 0 with
the fragment shader 2 created, not passed to `glDeleteShader`, and alive in the
driver. When linking fails, `shaderLoad` deletes the program 3 and returns 0
with both shaders created, neither deleted, and both alive. -/
theorem shaderLoad_failure_leaks :
    ((shaderLoad simEnv "v.glsl" "bad.glsl" (World.init sim0)).1 = 0 ∧
      createdShaders (shaderLoad simEnv "v.glsl" "bad.glsl" (World.init sim0)).2.log =
        [(GL_VERTEX_SHADER, 1), (GL_FRAGMENT_SHADER, 2)] ∧
      deletedShaders (shaderLoad simEnv "v.glsl" "bad.glsl" (World.init sim0)).2.log = [1] ∧
      sim0.shaders = [] ∧
      (shaderLoad simEnv "v.glsl" "bad.glsl" (World.init sim0)).2.sys.shaders.map ShaderObj.name
        = [2]) ∧
    ((shaderLoad simEnv "v.glsl" "f.glsl" (World.init simNoLink)).1 = 0 ∧
      createdShaders (shaderLoad simEnv "v.glsl" "f.glsl" (World.init simNoLink)).2.log =
        [(GL_VERTEX_SHADER, 1), (GL_FRAGMENT_SHADER, 2)] ∧
      createdPrograms (shaderLoad simEnv "v.glsl" "f.glsl" (World.init simNoLink)).2.log = [3] ∧
      deletedShaders (shaderLoad simEnv "v.glsl" "f.glsl" (World.init simNoLink)).2.log = [] ∧
      deletedPrograms (shaderLoad simEnv "v.glsl" "f.glsl" (World.init simNoLink)).2.log = [3] ∧
      simNoLink.shaders = [] ∧
      (shaderLoad simEnv "v.glsl" "f.glsl" (World.init simNoLink)).2.sys.shaders.map
        ShaderObj.name = [1, 2] ∧
      (shaderLoad simEnv "v.glsl" "f.glsl" (World.init simNoLink)).2.sys.programs = []) := by
  decide

/-- C4. The setter `shaderSetBool` with `true` is `shaderSetInt` with 1, and with `false`
it is `shaderSetInt` with 0: the same calls are logged and the environment is
left in the same state. -/
theorem shaderSetBool_eq_shaderSetInt (env : Env σ) (id : Nat) (name : String) (w : World σ) :
    shaderSetBool env id name true w = shaderSetInt env id name 1 w ∧
    shaderSetBool env id name false w = shaderSetInt env id name 0 w ∧
    ∀ value : Bool, shaderSetBool env id name value w =
      shaderSetInt env id name (if value then 1 else 0) w :=
  ⟨rfl, rfl, fun _ => rfl⟩

/-- C5. The vector overload of `shaderSetVec2`, `shaderSetVec3` and `shaderSetVec4` looks
up the same location as the overload taking the components, and uploads there
one vector (count 1) whose floats are x, y, z, w in this order; the value it
uploads is the value the component overload uploads. Whenever the driver treats
`glUniform2fv` of one vector as `glUniform2f` of its two floats (and likewise for
3 and 4), both overloads leave it in the same state. -/
theorem shaderSetVec_overloads_agree (env : Env σ) (id : Nat) (name : String)
    (x y z w : GLfloat) (s : σ) :
    ((shaderSetVec2 env id name ⟨x, y⟩ (World.init s)).log =
        [Call.glGetUniformLocation id name (env.glGetUniformLocation id name s).1,
         Call.glUniform (Upload.glUniform2fv (env.glGetUniformLocation id name s).1 1 [x, y])] ∧
      (shaderSetVec2xy env id name x y (World.init s)).log =
        [Call.glGetUniformLocation id name (env.glGetUniformLocation id name s).1,
         Call.glUniform (Upload.glUniform2f (env.glGetUniformLocation id name s).1 x y)] ∧
      Upload.value (Upload.glUniform2fv (env.glGetUniformLocation id name s).1 1 [x, y]) =
        Upload.value (Upload.glUniform2f (env.glGetUniformLocation id name s).1 x y) ∧
      ((∀ l a b t, env.glUniform (Upload.glUniform2fv l 1 [a, b]) t =
          env.glUniform (Upload.glUniform2f l a b) t) →
        (shaderSetVec2 env id name ⟨x, y⟩ (World.init s)).sys =
          (shaderSetVec2xy env id name x y (World.init s)).sys)) ∧
    ((shaderSetVec3 env id name ⟨x, y, z⟩ (World.init s)).log =
        [Call.glGetUniformLocation id name (env.glGetUniformLocation id name s).1,
         Call.glUniform
           (Upload.glUniform3fv (env.glGetUniformLocation id name s).1 1 [x, y, z])] ∧
      (shaderSetVec3xyz env id name x y z (World.init s)).log =
        [Call.glGetUniformLocation id name (env.glGetUniformLocation id name s).1,
         Call.glUniform (Upload.glUniform3f (env.glGetUniformLocation id name s).1 x y z)] ∧
      Upload.value (Upload.glUniform3fv (env.glGetUniformLocation id name s).1 1 [x, y, z]) =
        Upload.value (Upload.glUniform3f (env.glGetUniformLocation id name s).1 x y z) ∧
      ((∀ l a b c t, env.glUniform (Upload.glUniform3fv l 1 [a, b, c]) t =
          env.glUniform (Upload.glUniform3f l a b c) t) →
        (shaderSetVec3 env id name ⟨x, y, z⟩ (World.init s)).sys =
          (shaderSetVec3xyz env id name x y z (World.init s)).sys)) ∧
    ((shaderSetVec4 env id name ⟨x, y, z, w⟩ (World.init s)).log =
        [Call.glGetUniformLocation id name (env.glGetUniformLocation id name s).1,
         Call.glUniform
           (Upload.glUniform4fv (env.glGetUniformLocation id name s).1 1 [x, y, z, w])] ∧
      (shaderSetVec4xyzw env id name x y z w (World.init s)).log =
        [Call.glGetUniformLocation id name (env.glGetUniformLocation id name s).1,
         Call.glUniform (Upload.glUniform4f (env.glGetUniformLocation id name s).1 x y z w)] ∧
      Upload.value (Upload.glUniform4fv (env.glGetUniformLocation id name s).1 1 [x, y, z, w]) =
        Upload.value (Upload.glUniform4f (env.glGetUniformLocation id name s).1 x y z w) ∧
      ((∀ l a b c d t, env.glUniform (Upload.glUniform4fv l 1 [a, b, c, d]) t =
          env.glUniform (Upload.glUniform4f l a b c d) t) →
        (shaderSetVec4 env id name ⟨x, y, z, w⟩ (World.init s)).sys =
          (shaderSetVec4xyzw env id name x y z w (World.init s)).sys)) :=
  ⟨⟨rfl, rfl, rfl, fun h => h _ _ _ _⟩, ⟨rfl, rfl, rfl, fun h => h _ _ _ _ _⟩,
    ⟨rfl, rfl, rfl, fun h => h _ _ _ _ _ _⟩⟩

/-- The reference driver stores an upload by its location and value. -/
theorem Sim.glUniform_by_value (u u' : Upload) (m : Sim)
    (hl : Upload.location u = Upload.location u') (hv : Upload.value u = Upload.value u') :
    simEnv.glUniform u m = simEnv.glUniform u' m := by
  show Sim.glUniform u m = Sim.glUniform u' m
  simp only [Sim.glUniform, hl, hv]

/-- C5 at a concrete input: the reference driver with program 3 in use treats the
`fv` uploads of one vector as the uploads of the floats, and both overloads
store the same value in program 3. -/
theorem shaderSetVec_overloads_agree_witness :
    (shaderSetVec2 simEnv 3 "color" ⟨1, 2⟩ (World.init simInUse)).sys =
      (shaderSetVec2xy simEnv 3 "color" 1 2 (World.init simInUse)).sys ∧
    (shaderSetVec3 simEnv 3 "color" ⟨1, 2, 3⟩ (World.init simInUse)).sys =
      (shaderSetVec3xyz simEnv 3 "color" 1 2 3 (World.init simInUse)).sys ∧
    (shaderSetVec4 simEnv 3 "color" ⟨1, 2, 3, 4⟩ (World.init simInUse)).sys =
      (shaderSetVec4xyzw simEnv 3 "color" 1 2 3 4 (World.init simInUse)).sys ∧
    (shaderSetVec2 simEnv 3 "color" ⟨1, 2⟩ (World.init simInUse)).sys.storeOf 3 =
      some [(0, UniformValue.floats [1, 2])] ∧
    (shaderSetVec4xyzw simEnv 3 "color" 1 2 3 4 (World.init simInUse)).sys.storeOf 3 =
      some [(0, UniformValue.floats [1, 2, 3, 4])] :=
  ⟨(shaderSetVec_overloads_agree simEnv 3 "color" 1 2 3 4 simInUse).1.2.2.2
      (fun _ _ _ t => Sim.glUniform_by_value _ _ t rfl rfl),
   (shaderSetVec_overloads_agree simEnv 3 "color" 1 2 3 4 simInUse).2.1.2.2.2
      (fun _ _ _ _ t => Sim.glUniform_by_value _ _ t rfl rfl),
   (shaderSetVec_overloads_agree simEnv 3 "color" 1 2 3 4 simInUse).2.2.2.2.2
      (fun _ _ _ _ _ t => Sim.glUniform_by_value _ _ t rfl rfl),
   by decide, by decide⟩

/-- A setter is a lookup of the location followed by an upload to it. -/
theorem Setter.run_eq (env : Env σ) (id : Nat) (name : String) (c : Setter) (w : World σ) :
    c.run env id name w =
      ⟨env.glUniform (c.upload (env.glGetUniformLocation id name w.sys).1)
          (env.glGetUniformLocation id name w.sys).2,
        w.log ++ [Call.glGetUniformLocation id name (env.glGetUniformLocation id name w.sys).1,
          Call.glUniform (c.upload (env.glGetUniformLocation id name w.sys).1)], w.ub⟩ := by
  cases c <;>
    simp [Setter.run, Setter.upload, shaderSetBool, shaderSetInt, shaderSetFloat, shaderSetVec2,
      shaderSetVec2xy, shaderSetVec3, shaderSetVec3xyz, shaderSetVec4, shaderSetVec4xyzw,
      shaderSetMat2, shaderSetMat3, shaderSetMat4, glGetUniformLocation, glUniform,
      World.emit, vec2.ptr, vec3.ptr, vec4.ptr]

/-- The upload of a setter goes to the location it is given. -/
theorem Setter.upload_location (location : Int) (c : Setter) :
    Upload.location (c.upload location) = location := by
  cases c <;> rfl

/-- In the reference driver an update of one program leaves the others alone. -/
theorem Sim.findProgram_mapProgram (m : Sim) (n p : Nat) (f : ProgramObj → ProgramObj)
    (hf : ∀ o, (f o).name = o.name) (h : p ≠ n) :
    (m.mapProgram n f).findProgram p = m.findProgram p := by
  simp only [Sim.findProgram, Sim.mapProgram]
  generalize m.programs = l
  induction l with
  | nil => rfl
  | cons o os ih =>
    simp only [List.map_cons, List.find?_cons]
    by_cases e : o.name = n
    · have h1 : ¬ (f o).name = p := by
        rw [hf, e]
        exact fun e' => h e'.symm
      have h2 : ¬ o.name = p := by
        rw [e]
        exact fun e' => h e'.symm
      rw [if_pos e]
      simp only [h1, h2, decide_False]
      exact ih
    · rw [if_neg e, ih]

/-- In the reference driver an upload changes the store of no program but the
one in use, and not the program in use. -/
theorem Sim.glUniform_frame (u : Upload) (m : Sim) :
    (Sim.glUniform u m).current = m.current ∧
    ∀ p, p ≠ m.current → (Sim.glUniform u m).storeOf p = m.storeOf p := by
  unfold Sim.glUniform
  split
  · exact ⟨rfl, fun _ _ => rfl⟩
  · refine ⟨rfl, fun p hp => ?_⟩
    exact congrArg (Option.map ProgramObj.store)
      (Sim.findProgram_mapProgram _ _ _ _ (fun _ => rfl) hp)

/-- In the reference driver a lookup of a location changes nothing. -/
theorem Sim.glGetUniformLocation_frame (program : Nat) (name : String) (m : Sim) :
    (Sim.glGetUniformLocation program name m).2 = m := by
  unfold Sim.glGetUniformLocation
  split <;> rfl

/-- C10. Every uniform setter issues exactly two calls, the lookup
`glGetUniformLocation(id, name)` and one upload to the location it returned, so
it never calls `glUseProgram`; what the lookup and the uploads of the driver
leave alone (the program in use) is as before. The matrix setters upload one
matrix with transpose `GL_FALSE`. The upload is not told `id`: in the reference
driver the program in use stays the same and no program other than the one in
use has its stored uniforms changed. -/
theorem shaderSet_frame (env : Env σ) (id : Nat) (name : String) (c : Setter) (s : σ)
    {α : Type} (cur : σ → α)
    (hlook : ∀ i n t, cur (env.glGetUniformLocation i n t).2 = cur t)
    (hup : ∀ u t, cur (env.glUniform u t) = cur t) :
    (∃ u, (c.run env id name (World.init s)).log =
        [Call.glGetUniformLocation id name (env.glGetUniformLocation id name s).1,
         Call.glUniform u] ∧
      Upload.location u = (env.glGetUniformLocation id name s).1 ∧
      (c.run env id name (World.init s)).sys =
        env.glUniform u (env.glGetUniformLocation id name s).2) ∧
    (∀ p, Call.glUseProgram p ∉ (c.run env id name (World.init s)).log) ∧
    cur (c.run env id name (World.init s)).sys = cur s ∧
    (∀ mat, (shaderSetMat2 env id name mat (World.init s)).log =
      [Call.glGetUniformLocation id name (env.glGetUniformLocation id name s).1,
       Call.glUniform (Upload.glUniformMatrix2fv (env.glGetUniformLocation id name s).1 1
         GL_FALSE mat.ptr)]) ∧
    (∀ mat, (shaderSetMat3 env id name mat (World.init s)).log =
      [Call.glGetUniformLocation id name (env.glGetUniformLocation id name s).1,
       Call.glUniform (Upload.glUniformMatrix3fv (env.glGetUniformLocation id name s).1 1
         GL_FALSE mat.ptr)]) ∧
    (∀ mat, (shaderSetMat4 env id name mat (World.init s)).log =
      [Call.glGetUniformLocation id name (env.glGetUniformLocation id name s).1,
       Call.glUniform (Upload.glUniformMatrix4fv (env.glGetUniformLocation id name s).1 1
         GL_FALSE mat.ptr)]) ∧
    (∀ m : Sim, (c.run simEnv id name (World.init m)).sys.current = m.current ∧
      ∀ p, p ≠ m.current → (c.run simEnv id name (World.init m)).sys.storeOf p = m.storeOf p) := by
  refine ⟨⟨c.upload (env.glGetUniformLocation id name s).1, ?_, Setter.upload_location _ c, ?_⟩,
    ?_, ?_, fun _ => rfl, fun _ => rfl, fun _ => rfl, fun m => ?_⟩
  · rw [Setter.run_eq]
    rfl
  · rw [Setter.run_eq]
    rfl
  · intro p
    rw [Setter.run_eq]
    simp [World.init]
  · rw [Setter.run_eq]
    simp only [World.init]
    rw [hup, hlook]
  · rw [Setter.run_eq]
    have e : (simEnv.glGetUniformLocation id name (World.init m).sys).2 = m :=
      Sim.glGetUniformLocation_frame id name m
    simp only [e]
    exact Sim.glUniform_frame _ m

/-- C10 at a concrete input: program 3 is in use and a setter is called for
program 6; the value lands in program 3 and program 6 is left alone. -/
theorem shaderSet_frame_witness :
    Sim.current (Setter.run simEnv 6 "color" (.setVec3xyz 1 2 3) (World.init simInUse)).sys
      = Sim.current simInUse ∧
    simInUse.current = 3 ∧
    simInUse.storeOf 3 = some [] ∧
    simInUse.storeOf 6 = some [] ∧
    (Setter.run simEnv 6 "color" (.setVec3xyz 1 2 3) (World.init simInUse)).log =
      [Call.glGetUniformLocation 6 "color" 0, Call.glUniform (Upload.glUniform3f 0 1 2 3)] ∧
    (Setter.run simEnv 6 "color" (.setVec3xyz 1 2 3) (World.init simInUse)).sys.storeOf 6
      = some [] ∧
    (Setter.run simEnv 6 "color" (.setVec3xyz 1 2 3) (World.init simInUse)).sys.storeOf 3
      = some [(0, UniformValue.floats [1, 2, 3])] :=
  ⟨(shaderSet_frame simEnv 6 "color" (.setVec3xyz 1 2 3) simInUse Sim.current
      (fun i n t => congrArg Sim.current (Sim.glGetUniformLocation_frame i n t))
      (fun u t => (Sim.glUniform_frame u t).1)).2.2.1,
    by decide, by decide, by decide, by decide, by decide, by decide⟩

end VcShader
